import Mathlib

/-!
Verification of server_status_check.

A shallow embedding of `src/server_status_check.cpp` (one `main`, lines 34-204)
and the properties of its connectivity-inference procedure.

The program reads the system clock, touches three paths inside
`../local_uptime_folder/` and, through the external tool, one remote object.
The library calls it makes are embedded by their effect on that state:

* `std::chrono::system_clock::now()` and `to_time_t` (lines 41-42): a signed
  64-bit count of nanoseconds since the epoch, truncated to whole seconds;
* `std::localtime` and `std::strftime` (lines 53-57);
* `std::ofstream(path, app)` / `std::ofstream(path)` followed by `<<` and
  `close()`: a stream that fails to open (folder missing, file cannot be
  created, file not writable, path is a directory) sets its fail bit, writes
  nothing and throws nothing (no exception mask is set in the source);
* `std::filesystem::remove(path)`: returns `false` for a missing file, removes a
  file or an empty directory, and throws `filesystem_error` on any other
  operating-system error (entry cannot be unlinked, directory not empty);
* `std::filesystem::exists(path)`;
* `std::system(cmd)`: runs the external tool and returns its exit status as an
  `int`; it never throws.
-/

namespace ServerStatusCheck

/-! ## Clock Reader (lines 41-57) -/

/-- The value of `std::chrono::system_clock::now()` (line 42): nanoseconds
since the epoch in a signed 64-bit integer. -/
structure TimePoint where
  count : Int
  lower : -9223372036854775808 ≤ count
  upper : count ≤ 9223372036854775807

/-- The offset from UTC, in seconds east of Greenwich, that the time-zone data
gives for an instant; time-zone data keeps it between -24:59:59 and
+25:59:59. -/
structure UtcOffset where
  seconds : Int
  lower : -89999 ≤ seconds
  upper : seconds ≤ 93599

/-- `std::chrono::system_clock::to_time_t` (line 41): the duration cast to
whole seconds, truncating toward zero. -/
def to_time_t (now : TimePoint) : Int :=
  if 0 ≤ now.count then now.count / 1000000000 else -((-now.count) / 1000000000)

/-- A calendar date. -/
structure Civil where
  year : Int
  month : Int
  day : Int
  deriving DecidableEq, Repr

/-- The proleptic Gregorian date of a day number counted from 1970-01-01.
Days are counted inside a 400-year era that starts on 1 March, then split into
centuries, 4-year cycles and years. -/
def civil_from_days (days : Int) : Civil :=
  let z := days + 719468
  let era := z / 146097
  let doe := z % 146097
  let c := min (doe / 36524) 3
  let doc := doe - c * 36524
  let q := doc / 1461
  let doq := doc - q * 1461
  let y4 := min (doq / 365) 3
  let doy := doq - y4 * 365
  let mp := (5 * doy + 2) / 153
  let d := doy - (153 * mp + 2) / 5 + 1
  let m := if mp < 10 then mp + 3 else mp - 9
  let y := era * 400 + c * 100 + q * 4 + y4 + (if m ≤ 2 then 1 else 0)
  { year := y, month := m, day := d }

/-- Broken-down local time, the result of `std::localtime` (line 56):
`tm_year` counts from 1900, `tm_mon` from 0, `tm_gmtoff` is in seconds. -/
structure Tm where
  tm_year : Int
  tm_mon : Nat
  tm_mday : Nat
  tm_hour : Nat
  tm_min : Nat
  tm_sec : Nat
  tm_gmtoff : Int
  deriving DecidableEq, Repr

/-- Ranges of the fields of a `std::localtime` result; the offset stays below
100 hours. -/
def Tm.inRange (t : Tm) : Prop :=
  t.tm_mon < 12 ∧ 1 ≤ t.tm_mday ∧ t.tm_mday ≤ 31 ∧ t.tm_hour < 24 ∧
  t.tm_min < 60 ∧ t.tm_sec ≤ 60 ∧ t.tm_gmtoff.natAbs < 360000

instance (t : Tm) : Decidable t.inRange := by
  unfold Tm.inRange; infer_instance

/-- One decimal digit as a character. -/
def digitChar (d : Nat) : Char := Char.ofNat (48 + d % 10)

/-- Decimal rendering of a natural number, most significant digit first;
`0` renders as one digit. -/
def decimal (n : Nat) : List Char :=
  if n = 0 then ['0'] else ((Nat.digits 10 n).reverse).map digitChar

/-- Two-digit, zero-padded field (the conversions m, d, H, M, S and the two
halves of z). -/
def pad2 (n : Nat) : List Char :=
  if n < 10 then '0' :: decimal n else decimal n

/-- Conversion `%Y`: the year as a decimal number. -/
def fmtY (t : Tm) : List Char :=
  let y := t.tm_year + 1900
  if y < 0 then '-' :: decimal y.natAbs else decimal y.natAbs

/-- Conversion `%F`, that is `%Y-%m-%d`. -/
def fmtF (t : Tm) : List Char :=
  fmtY t ++ ['-'] ++ pad2 (t.tm_mon + 1) ++ ['-'] ++ pad2 t.tm_mday

/-- Conversion `%T`, that is `%H:%M:%S`. -/
def fmtT (t : Tm) : List Char :=
  pad2 t.tm_hour ++ [':'] ++ pad2 t.tm_min ++ [':'] ++ pad2 t.tm_sec

/-- Conversion `%z`: offset from UTC as sign, hours, minutes. -/
def fmtz (t : Tm) : List Char :=
  let a := t.tm_gmtoff.natAbs
  (if t.tm_gmtoff < 0 then '-' else '+') :: (pad2 (a / 3600) ++ pad2 (a / 60 % 60))

/-- The expansion of the format string `"%FT%T%z"` (line 55). -/
def formatted (t : Tm) : List Char :=
  fmtF t ++ ['T'] ++ fmtT t ++ fmtz t

/-- `std::strftime(buf, maxsize, "%FT%T%z", tm)` (lines 54-56): the expansion is
stored when it fits the buffer together with its terminating null character;
otherwise the call returns 0 and the buffer contents are indeterminate
(`none`). -/
def strftime (maxsize : Nat) (t : Tm) : Option String :=
  if (formatted t).length + 1 ≤ maxsize then some (String.mk (formatted t)) else none

/-- Lines 53-57: the timestamp string read out of the 25-byte container. -/
def current_time_string (t : Tm) : Option String := strftime 25 t


/-- `std::localtime` (line 56): the broken-down local time of `t` seconds since
the epoch, `zone t` being the offset from UTC in force at that instant. -/
def localtime (zone : Int → UtcOffset) (t : Int) : Tm :=
  let off := (zone t).seconds
  let loc := t + off
  let c := civil_from_days (loc / 86400)
  let sod := loc % 86400
  { tm_year := c.year - 1900,
    tm_mon := (c.month - 1).toNat,
    tm_mday := c.day.toNat,
    tm_hour := (sod / 3600).toNat,
    tm_min := (sod / 60 % 60).toNat,
    tm_sec := (sod % 60).toNat,
    tm_gmtoff := off }

/-- Lines 41-57 together: the timestamp string the program computes from the
clock reading. -/
def clock_reader (zone : Int → UtcOffset) (now : TimePoint) : Option String :=
  current_time_string (localtime zone (to_time_t now))

/-! ## Filesystem state and library calls -/

/-- The directory `../local_uptime_folder`: missing, present but closed to
creating and deleting entries, or present and open to both. -/
inductive Folder where
  | missing
  | read_only
  | writable
  deriving DecidableEq, Repr

/-- What sits at a path inside the folder: nothing, a regular file with its
content and whether the program may write to it, or a directory (non-empty or
empty). -/
inductive Node where
  | absent
  | file (content : String) (writable : Bool)
  | dir (nonempty : Bool)
  deriving DecidableEq, Repr

/-- The part of the world the program can touch: the folder, the three local
paths inside it and the remote `latest_uptime.txt` object. -/
structure FS where
  folder : Folder
  laptop_uptime_log : Node
  server_uptime_log : Node
  latest_uptime : Node
  remote_latest : Option String
  deriving DecidableEq, Repr

/-- Whether an output stream on the path opens: a missing file can be created
only in a writable folder, an existing file must be writable, a directory
cannot be opened. -/
def ofstream_ok (folder : Folder) (n : Node) : Bool :=
  match folder, n with
  | Folder.missing, _ => false
  | Folder.writable, Node.absent => true
  | Folder.read_only, Node.absent => false
  | _, Node.file _ w => w
  | _, Node.dir _ => false

/-- `std::ofstream f(path, std::ofstream::app); f << s; f.close();`
(lines 75-79 and 137-141).  The stream state is never tested: when the stream
did not open nothing is written and the path keeps what it had. -/
def ofstream_app (folder : Folder) (n : Node) (s : String) : Node :=
  if ofstream_ok folder n then
    match n with
    | Node.file c w => Node.file (c ++ s) w
    | _ => Node.file s true
  else n

/-- `std::ofstream f(path); f << s; f.close();` (lines 150-157): the default
open mode truncates. -/
def ofstream_trunc (folder : Folder) (n : Node) (s : String) : Node :=
  if ofstream_ok folder n then
    match n with
    | Node.file _ w => Node.file s w
    | _ => Node.file s true
  else n

/-- `std::filesystem::remove(path)` (line 91), the throwing overload: `ok` with
the node left behind, or `error` when `filesystem_error` is thrown.  Nothing at
the path is not an error; unlinking needs a writable folder; a non-empty
directory is never removed. -/
def fs_remove (folder : Folder) (n : Node) : Except Unit Node :=
  match folder, n with
  | Folder.missing, _ => Except.ok Node.absent
  | _, Node.absent => Except.ok Node.absent
  | Folder.writable, Node.file _ _ => Except.ok Node.absent
  | Folder.writable, Node.dir false => Except.ok Node.absent
  | _, _ => Except.error ()

/-- `std::filesystem::exists(path)` (lines 126-127). -/
def fs_exists (folder : Folder) (n : Node) : Bool :=
  match folder, n with
  | Folder.missing, _ => false
  | _, Node.absent => false
  | _, _ => true

/-- The external synchronisation tool behind the two `rclone copyto SRC DST`
command lines (lines 106-108 and 173-176).  Each call may leave anything at its
destination and return any exit status; the source is only read. -/
structure SyncTool where
  /-- Fetch, remote object to local marker path: given the remote object and
  the local marker node, the node left at the marker path and the status. -/
  fetch : Option String → Node → Node × Int
  /-- Upload, local marker path to remote object: given the local marker node
  and the remote object, the remote object left behind and the status. -/
  upload : Node → Option String → Option String × Int

/-- The folder after the fetch command: a tool that leaves something at the
marker path of a missing folder has created the folder. -/
def folder_after_fetch (folder : Folder) (left : Node) : Folder :=
  match folder, left with
  | Folder.missing, Node.absent => Folder.missing
  | Folder.missing, _ => Folder.writable
  | f, _ => f

/-- `std::system(fetch command)` inside the `try` of lines 96-109: the call
returns the tool's status as a value and never throws, so the body always
completes (`ok`). -/
def system_fetch (tool : SyncTool) (fs : FS) : Except Unit (FS × Int) :=
  let r := tool.fetch fs.remote_latest fs.latest_uptime
  Except.ok ({ fs with folder := folder_after_fetch fs.folder r.1, latest_uptime := r.1 }, r.2)

/-- `std::system(upload command)` inside the `try` of lines 162-177. -/
def system_upload (tool : SyncTool) (fs : FS) : Except Unit (FS × Int) :=
  let r := tool.upload fs.latest_uptime fs.remote_latest
  Except.ok ({ fs with remote_latest := r.1 }, r.2)

/-! ## The run -/

/-- The steps of `main` that act on the outside world, in program order; a
write step carries whether its stream opened, a command step its status. -/
inductive Step where
  | laptop_append (ok : Bool)
  | marker_remove
  | fetch_call (status : Int)
  | exists_check (found : Bool)
  | server_append (ok : Bool)
  | marker_overwrite (ok : Bool)
  | upload_call (status : Int)
  deriving DecidableEq, Repr

/-- The two arms of the `if` at lines 126-188. -/
inductive Branch where
  | reachable
  | unreachable
  deriving DecidableEq, Repr

/-- Everything observable about one run of `main`. -/
structure Run where
  /-- filesystem when the process ends -/
  fs : FS
  /-- what was written to `std::cout`, in order -/
  console : List String
  /-- steps performed, in order -/
  trace : List Step
  /-- state on which the fetch command was invoked -/
  fetch_input : Option FS
  /-- state the fetch command left -/
  fetch_output : Option FS
  /-- arm of the `if` that was entered -/
  branch : Option Branch
  /-- state on which the upload command was invoked -/
  upload_input : Option FS
  /-- `true` when `main` returned; `false` when an uncaught exception ended the
  process -/
  returned : Bool
  deriving DecidableEq, Repr

def msg_retrieval_error : String := "Error during file retrieval attempt.\n"
def msg_connected : String := "Successfully connected to server.\n"
def msg_upload_error : String := "Error during file upload attempt.\n"
def msg_failed : String := "Failed to connect to server.\n"

/-- Lines 200-201; `run_seconds` is the text `operator<<` produces for the
elapsed time. -/
def msg_finished (run_seconds : String) : String :=
  "Finished running script in " ++ run_seconds ++ " seconds.\n"

/-- The function `main` (lines 34-204) after the Clock Reader:
`current_time_string` is the string of line 57, `run_seconds` the rendering of
the measured duration. -/
def main (tool : SyncTool) (current_time_string run_seconds : String) (fs0 : FS) : Run :=
  let line := current_time_string ++ "\n"
  -- lines 75-79
  let fs1 := { fs0 with laptop_uptime_log := ofstream_app fs0.folder fs0.laptop_uptime_log line }
  let tr1 := [Step.laptop_append (ofstream_ok fs0.folder fs0.laptop_uptime_log)]
  -- line 91
  match fs_remove fs1.folder fs1.latest_uptime with
  | Except.error _ =>
    { fs := fs1, console := [], trace := tr1 ++ [Step.marker_remove],
      fetch_input := none, fetch_output := none, branch := none,
      upload_input := none, returned := false }
  | Except.ok n =>
    let fs2 := { fs1 with latest_uptime := n }
    let tr2 := tr1 ++ [Step.marker_remove]
    -- lines 96-115
    let r3 : FS × List String × List Step :=
      match system_fetch tool fs2 with
      | Except.ok (fs, status) => (fs, [], [Step.fetch_call status])
      | Except.error _ => (fs2, [msg_retrieval_error], [])
    let fs3 := r3.1
    let out3 := r3.2.1
    let tr3 := tr2 ++ r3.2.2
    -- lines 126-127
    let found := fs_exists fs3.folder fs3.latest_uptime
    let tr4 := tr3 ++ [Step.exists_check found]
    if found then
      -- line 130
      let out4 := out3 ++ [msg_connected]
      -- lines 137-141
      let fs5 := { fs3 with server_uptime_log := ofstream_app fs3.folder fs3.server_uptime_log line }
      let tr5 := tr4 ++ [Step.server_append (ofstream_ok fs3.folder fs3.server_uptime_log)]
      -- lines 150-157
      let fs6 := { fs5 with latest_uptime := ofstream_trunc fs5.folder fs5.latest_uptime line }
      let tr6 := tr5 ++ [Step.marker_overwrite (ofstream_ok fs5.folder fs5.latest_uptime)]
      -- lines 162-183
      let r7 : FS × List String × List Step :=
        match system_upload tool fs6 with
        | Except.ok (fs, status) => (fs, [], [Step.upload_call status])
        | Except.error _ => (fs6, [msg_upload_error], [])
      -- lines 191-201
      { fs := r7.1, console := out4 ++ r7.2.1 ++ [msg_finished run_seconds],
        trace := tr6 ++ r7.2.2,
        fetch_input := some fs2, fetch_output := some fs3,
        branch := some Branch.reachable, upload_input := some fs6, returned := true }
    else
      -- line 188, then lines 191-201
      { fs := fs3, console := out3 ++ [msg_failed, msg_finished run_seconds],
        trace := tr4,
        fetch_input := some fs2, fetch_output := some fs3,
        branch := some Branch.unreachable, upload_input := none, returned := true }

/-- The content of a log path read as text: a missing file holds nothing. -/
def Node.content (n : Node) : Option String :=
  match n with
  | Node.absent => some ""
  | Node.file c _ => some c
  | Node.dir _ => none

/-- Whether `std::filesystem::remove` can clear the path without an error:
nothing is there, or the entry is a file or an empty directory in a writable
folder. -/
def Node.deletable (n : Node) (folder : Folder) : Bool :=
  match folder, n with
  | Folder.missing, _ => true
  | _, Node.absent => true
  | Folder.writable, Node.file _ _ => true
  | Folder.writable, Node.dir false => true
  | _, _ => false

/-- The state on which the fetch command runs when Marker Reset raises no
error: the laptop log has been through its append and the marker path is
empty. -/
def before_fetch (current_time_string : String) (fs0 : FS) : FS :=
  { fs0 with
    laptop_uptime_log :=
      ofstream_app fs0.folder fs0.laptop_uptime_log (current_time_string ++ "\n"),
    latest_uptime := Node.absent }

/-- The state the fetch command leaves when run on `fs`. -/
def after_fetch (tool : SyncTool) (fs : FS) : FS :=
  { fs with
    folder := folder_after_fetch fs.folder (tool.fetch fs.remote_latest fs.latest_uptime).1,
    latest_uptime := (tool.fetch fs.remote_latest fs.latest_uptime).1 }

/-- The parameters of one run: the external tool as it behaves during that
run, the timestamp, and the rendered duration. -/
structure RunInput where
  tool : SyncTool
  current_time_string : String
  run_seconds : String

/-- A finite sequence of runs, each starting on the filesystem the previous
one left. -/
def runs (inputs : List RunInput) (fs0 : FS) : FS :=
  inputs.foldl
    (fun fs i => (main i.tool i.current_time_string i.run_seconds fs).fs) fs0

/-- The runs of a sequence, in order. -/
def run_list : List RunInput → FS → List Run
  | [], _ => []
  | i :: rest, fs =>
    main i.tool i.current_time_string i.run_seconds fs ::
      run_list rest (main i.tool i.current_time_string i.run_seconds fs).fs

/-- Whether every log append a run attempted found its stream open. -/
def appends_succeed (r : Run) : Bool :=
  r.trace.all fun s =>
    match s with
    | Step.laptop_append ok => ok
    | Step.server_append ok => ok
    | _ => true

/-- The text of a log whose lines are the given timestamps, oldest first. -/
def logText (stamps : List String) : String :=
  stamps.foldl (fun acc t => acc ++ (t ++ "\n")) ""

/-! ## Sample collaborators and states -/

/-- A tool with the remote endpoint up: fetch copies the remote object to the
marker path, upload copies the marker file to the remote object. -/
def tool_up : SyncTool where
  fetch := fun r _ =>
    (match r with
     | some c => Node.file c true
     | none => Node.absent, 0)
  upload := fun n r =>
    (match n with
     | Node.file c _ => some c
     | _ => r, 0)

/-- A tool with the remote endpoint down: both commands change nothing and
exit with status 1. -/
def tool_down : SyncTool where
  fetch := fun _ n => (n, 1)
  upload := fun _ r => (r, 1)

/-- Same as `tool_down`, but the fetch command reports status 0. -/
def tool_down_quiet : SyncTool where
  fetch := fun _ n => (n, 0)
  upload := fun _ r => (r, 1)

/-- A tool whose fetch works and whose upload fails with status 1, leaving
the remote object as it was. -/
def tool_upload_fails : SyncTool where
  fetch := fun r _ =>
    (match r with
     | some c => Node.file c true
     | none => Node.absent, 0)
  upload := fun _ r => (r, 1)

/-- A tool whose fetch leaves the remote content in a file the program may
not write to. -/
def tool_leaves_read_only : SyncTool where
  fetch := fun r _ =>
    (match r with
     | some c => Node.file c false
     | none => Node.absent, 0)
  upload := fun n r =>
    (match n with
     | Node.file c _ => some c
     | _ => r, 0)

/-- A state after an earlier successful run: both logs hold one line and a
stale marker is present locally. -/
def fs_stale : FS where
  folder := Folder.writable
  laptop_uptime_log := Node.file "2025-01-01T10:00:00+0100\n" true
  server_uptime_log := Node.file "2025-01-01T10:00:00+0100\n" true
  latest_uptime := Node.file "2025-01-01T10:00:00+0100\n" true
  remote_latest := some "2025-01-01T10:00:00+0100\n"

/-- A fresh state: the folder exists, no local file yet, an empty marker on
the server. -/
def fs_fresh : FS where
  folder := Folder.writable
  laptop_uptime_log := Node.absent
  server_uptime_log := Node.absent
  latest_uptime := Node.absent
  remote_latest := some ""

/-- A first run in a directory where `../local_uptime_folder` was never
created. -/
def fs_no_folder : FS where
  folder := Folder.missing
  laptop_uptime_log := Node.absent
  server_uptime_log := Node.absent
  latest_uptime := Node.absent
  remote_latest := some ""

/-- The state `fs_stale` with the server log made read-only. -/
def fs_server_log_read_only : FS where
  folder := Folder.writable
  laptop_uptime_log := Node.file "2025-01-01T10:00:00+0100\n" true
  server_uptime_log := Node.file "2025-01-01T10:00:00+0100\n" false
  latest_uptime := Node.file "2025-01-01T10:00:00+0100\n" true
  remote_latest := some "2025-01-01T10:00:00+0100\n"

/-- The state `fs_stale` with the folder closed to deleting entries: the stale
marker cannot be unlinked. -/
def fs_stale_locked : FS where
  folder := Folder.read_only
  laptop_uptime_log := Node.file "2025-01-01T10:00:00+0100\n" true
  server_uptime_log := Node.file "2025-01-01T10:00:00+0100\n" true
  latest_uptime := Node.file "2025-01-01T10:00:00+0100\n" true
  remote_latest := some "2025-01-01T10:00:00+0100\n"

/-- A state in which a non-empty directory occupies the marker path. -/
def fs_marker_dir : FS where
  folder := Folder.writable
  laptop_uptime_log := Node.absent
  server_uptime_log := Node.absent
  latest_uptime := Node.dir true
  remote_latest := some ""

/-- Three runs in a row: server up, server down, server up again. -/
def sample_inputs : List RunInput :=
  [{ tool := tool_up, current_time_string := "2025-01-01T10:05:00+0100", run_seconds := "0.5" },
   { tool := tool_down, current_time_string := "2025-01-01T10:06:00+0100", run_seconds := "0.4" },
   { tool := tool_up, current_time_string := "2025-01-01T10:07:00+0100", run_seconds := "0.5" }]

/-- The clock reading 2025-01-01 09:05:00 UTC. -/
def now_2025 : TimePoint where
  count := 1735722300000000000
  lower := by decide
  upper := by decide

/-- The largest value the clock can hold (11 April 2262). -/
def now_max : TimePoint where
  count := 9223372036854775807
  lower := by decide
  upper := by decide

/-- The smallest value the clock can hold (21 September 1677). -/
def now_min : TimePoint where
  count := -9223372036854775808
  lower := by decide
  upper := by decide

/-- A zone fixed one hour east of UTC. -/
def zone_plus_one : Int → UtcOffset := fun _ =>
  { seconds := 3600, lower := by decide, upper := by decide }

/-- A zone fixed five and a half hours west of UTC. -/
def zone_minus_five_thirty : Int → UtcOffset := fun _ =>
  { seconds := -19800, lower := by decide, upper := by decide }

/-! ## Symbolic evaluation of `main` -/

theorem msg_finished_head (secs : String) :
    (msg_finished secs).data.head? = some 'F' := by
  simp [msg_finished, String.data_append]

theorem ne_msg_finished (m secs : String) (h : m.data.head? ≠ some 'F') :
    m ≠ msg_finished secs := by
  intro e
  apply h
  rw [e]
  exact msg_finished_head secs

theorem fs_remove_of_deletable (folder : Folder) (n : Node) (h : n.deletable folder = true) :
    fs_remove folder n = Except.ok Node.absent := by
  cases folder <;> cases n <;> simp_all [fs_remove, Node.deletable] <;>
    rename_i b <;> cases b <;> simp_all [fs_remove, Node.deletable]

theorem fs_remove_of_not_deletable (folder : Folder) (n : Node)
    (h : n.deletable folder = false) : fs_remove folder n = Except.error () := by
  cases folder <;> cases n <;> simp_all [fs_remove, Node.deletable] <;>
    rename_i b <;> cases b <;> simp_all [fs_remove, Node.deletable]

/-- The run when Marker Reset throws: the process ends after the laptop-log
append. -/
theorem main_of_not_deletable (tool : SyncTool) (T secs : String) (fs0 : FS)
    (h : fs0.latest_uptime.deletable fs0.folder = false) :
    main tool T secs fs0 =
      { fs := { fs0 with laptop_uptime_log :=
                  ofstream_app fs0.folder fs0.laptop_uptime_log (T ++ "\n") },
        console := [],
        trace := [Step.laptop_append (ofstream_ok fs0.folder fs0.laptop_uptime_log),
                  Step.marker_remove],
        fetch_input := none, fetch_output := none, branch := none,
        upload_input := none, returned := false } := by
  simp [main, fs_remove_of_not_deletable _ _ h]

/-- The run on the reachable branch. -/
theorem main_of_found (tool : SyncTool) (T secs : String) (fs0 : FS)
    (h : fs0.latest_uptime.deletable fs0.folder = true)
    (hx : fs_exists (after_fetch tool (before_fetch T fs0)).folder
      (after_fetch tool (before_fetch T fs0)).latest_uptime = true) :
    main tool T secs fs0 =
      { fs := { after_fetch tool (before_fetch T fs0) with
                server_uptime_log :=
                  ofstream_app (after_fetch tool (before_fetch T fs0)).folder
                    fs0.server_uptime_log (T ++ "\n"),
                latest_uptime :=
                  ofstream_trunc (after_fetch tool (before_fetch T fs0)).folder
                    (after_fetch tool (before_fetch T fs0)).latest_uptime (T ++ "\n"),
                remote_latest :=
                  (tool.upload
                    (ofstream_trunc (after_fetch tool (before_fetch T fs0)).folder
                      (after_fetch tool (before_fetch T fs0)).latest_uptime (T ++ "\n"))
                    fs0.remote_latest).1 },
        console := [msg_connected, msg_finished secs],
        trace :=
          [Step.laptop_append (ofstream_ok fs0.folder fs0.laptop_uptime_log),
           Step.marker_remove,
           Step.fetch_call (tool.fetch fs0.remote_latest Node.absent).2,
           Step.exists_check true,
           Step.server_append
             (ofstream_ok (after_fetch tool (before_fetch T fs0)).folder fs0.server_uptime_log),
           Step.marker_overwrite
             (ofstream_ok (after_fetch tool (before_fetch T fs0)).folder
               (after_fetch tool (before_fetch T fs0)).latest_uptime),
           Step.upload_call
             (tool.upload
               (ofstream_trunc (after_fetch tool (before_fetch T fs0)).folder
                 (after_fetch tool (before_fetch T fs0)).latest_uptime (T ++ "\n"))
               fs0.remote_latest).2],
        fetch_input := some (before_fetch T fs0),
        fetch_output := some (after_fetch tool (before_fetch T fs0)),
        branch := some Branch.reachable,
        upload_input := some
          { after_fetch tool (before_fetch T fs0) with
            server_uptime_log :=
              ofstream_app (after_fetch tool (before_fetch T fs0)).folder
                fs0.server_uptime_log (T ++ "\n"),
            latest_uptime :=
              ofstream_trunc (after_fetch tool (before_fetch T fs0)).folder
                (after_fetch tool (before_fetch T fs0)).latest_uptime (T ++ "\n") },
        returned := true } := by
  simp only [after_fetch, before_fetch] at hx
  simp [main, fs_remove_of_deletable _ _ h, system_fetch, system_upload, before_fetch,
    after_fetch, hx]

/-- The run on the unreachable branch. -/
theorem main_of_not_found (tool : SyncTool) (T secs : String) (fs0 : FS)
    (h : fs0.latest_uptime.deletable fs0.folder = true)
    (hx : fs_exists (after_fetch tool (before_fetch T fs0)).folder
      (after_fetch tool (before_fetch T fs0)).latest_uptime = false) :
    main tool T secs fs0 =
      { fs := after_fetch tool (before_fetch T fs0),
        console := [msg_failed, msg_finished secs],
        trace :=
          [Step.laptop_append (ofstream_ok fs0.folder fs0.laptop_uptime_log),
           Step.marker_remove,
           Step.fetch_call (tool.fetch fs0.remote_latest Node.absent).2,
           Step.exists_check false],
        fetch_input := some (before_fetch T fs0),
        fetch_output := some (after_fetch tool (before_fetch T fs0)),
        branch := some Branch.unreachable,
        upload_input := none,
        returned := true } := by
  simp only [after_fetch, before_fetch] at hx
  simp [main, fs_remove_of_deletable _ _ h, system_fetch, before_fetch, after_fetch, hx]

theorem fetch_output_of_deletable (tool : SyncTool) (T secs : String) (fs0 : FS)
    (h : fs0.latest_uptime.deletable fs0.folder = true) :
    (main tool T secs fs0).fetch_output = some (after_fetch tool (before_fetch T fs0)) ∧
    (main tool T secs fs0).fetch_input = some (before_fetch T fs0) := by
  cases hx : fs_exists (after_fetch tool (before_fetch T fs0)).folder
      (after_fetch tool (before_fetch T fs0)).latest_uptime
  · rw [main_of_not_found tool T secs fs0 h hx]
    exact ⟨rfl, rfl⟩
  · rw [main_of_found tool T secs fs0 h hx]
    exact ⟨rfl, rfl⟩

theorem main_fetch_output_some (tool : SyncTool) (T secs : String) (fs0 fs3 : FS)
    (h : (main tool T secs fs0).fetch_output = some fs3) :
    fs0.latest_uptime.deletable fs0.folder = true ∧
    fs3 = after_fetch tool (before_fetch T fs0) := by
  cases hd : fs0.latest_uptime.deletable fs0.folder
  · rw [main_of_not_deletable tool T secs fs0 hd] at h
    simp at h
  · rw [(fetch_output_of_deletable tool T secs fs0 hd).1] at h
    exact ⟨rfl, (Option.some.inj h).symm⟩

theorem fs_exists_absent (folder : Folder) : fs_exists folder Node.absent = false := by
  cases folder <;> rfl

theorem fs_exists_after_fetch_file (folder : Folder) (c : String) (w : Bool) :
    fs_exists (folder_after_fetch folder (Node.file c w)) (Node.file c w) = true := by
  cases folder <;> rfl

theorem ofstream_ok_after_fetch_file (folder : Folder) (c : String) :
    ofstream_ok (folder_after_fetch folder (Node.file c true)) (Node.file c true) = true := by
  cases folder <;> rfl

theorem ofstream_app_of_ok (folder : Folder) (n : Node) (s prior : String)
    (hok : ofstream_ok folder n = true) (hc : n.content = some prior) :
    ofstream_app folder n s = Node.file (prior ++ s) true := by
  cases folder <;> cases n <;> simp [Node.content] at hc <;> subst hc <;>
    simp_all [ofstream_app, ofstream_ok]

theorem ofstream_app_of_not_ok (folder : Folder) (n : Node) (s : String)
    (hok : ofstream_ok folder n = false) : ofstream_app folder n s = n := by
  simp [ofstream_app, hok]

theorem ofstream_trunc_of_ok (folder : Folder) (n : Node) (s : String)
    (hok : ofstream_ok folder n = true) : ofstream_trunc folder n s = Node.file s true := by
  cases folder <;> cases n <;> simp_all [ofstream_trunc, ofstream_ok]

theorem ofstream_trunc_of_not_ok (folder : Folder) (n : Node) (s : String)
    (hok : ofstream_ok folder n = false) : ofstream_trunc folder n s = n := by
  simp [ofstream_trunc, hok]

/-! ## Reachable and unreachable runs -/

/-- C1, as the code has it: the server log of `fs_server_log_read_only` cannot
be opened for writing.  The fetch probe leaves a file at the marker path and
the reachable branch is taken, yet the unchecked append of lines 137-141 writes
nothing: the server log ends exactly as it started, not with the new line.
Likewise a marker file that the fetch probe leaves read-only is not
overwritten by lines 150-157 and keeps the fetched content instead of `T`. -/
theorem C1_read_only_server_log_gains_no_line :
    ((main tool_up "2025-01-01T10:05:00+0100" "0.5" fs_server_log_read_only).fetch_output =
      some { fs_server_log_read_only with
             laptop_uptime_log := Node.file
               "2025-01-01T10:00:00+0100\n2025-01-01T10:05:00+0100\n" true,
             latest_uptime := Node.file "2025-01-01T10:00:00+0100\n" true } ∧
    (main tool_up "2025-01-01T10:05:00+0100" "0.5" fs_server_log_read_only).branch =
      some Branch.reachable ∧
    (main tool_up "2025-01-01T10:05:00+0100" "0.5" fs_server_log_read_only).fs.server_uptime_log =
      Node.file "2025-01-01T10:00:00+0100\n" false ∧
    (main tool_up "2025-01-01T10:05:00+0100" "0.5"
        fs_server_log_read_only).fs.server_uptime_log.content ≠
      some ("2025-01-01T10:00:00+0100\n" ++ ("2025-01-01T10:05:00+0100" ++ "\n"))) ∧
    ((main tool_leaves_read_only "2025-01-01T10:05:00+0100" "0.5" fs_stale).fetch_output =
      some { fs_stale with
             laptop_uptime_log := Node.file
               "2025-01-01T10:00:00+0100\n2025-01-01T10:05:00+0100\n" true,
             latest_uptime := Node.file "2025-01-01T10:00:00+0100\n" false } ∧
    (main tool_leaves_read_only "2025-01-01T10:05:00+0100" "0.5" fs_stale).branch =
      some Branch.reachable ∧
    (main tool_leaves_read_only "2025-01-01T10:05:00+0100" "0.5" fs_stale).fs.latest_uptime =
      Node.file "2025-01-01T10:00:00+0100\n" false ∧
    (main tool_leaves_read_only "2025-01-01T10:05:00+0100" "0.5"
        fs_stale).fs.latest_uptime.content ≠
      some ("2025-01-01T10:05:00+0100" ++ "\n")) := by
  refine ⟨⟨rfl, rfl, rfl, ?_⟩, ⟨rfl, rfl, rfl, ?_⟩⟩ <;> decide

/-- C1 (amended): in every run whose fetch probe leaves a writable file at the
marker path and in which the server log can be opened for appending, the
reachable branch is taken, the server log ends as its prior content followed by
the one line `T` + newline, and the marker file ends holding exactly `T` +
newline (truncated, not appended to); both writes use the same string. -/
theorem C1_reachable_branch_effects (tool : SyncTool) (T secs : String) (fs0 fs3 : FS)
    (prior c : String)
    (hprior : fs0.server_uptime_log.content = some prior)
    (hout : (main tool T secs fs0).fetch_output = some fs3)
    (hopen : ofstream_ok fs3.folder fs3.server_uptime_log = true)
    (hfile : fs3.latest_uptime = Node.file c true) :
    (main tool T secs fs0).branch = some Branch.reachable ∧
    (main tool T secs fs0).fs.server_uptime_log = Node.file (prior ++ (T ++ "\n")) true ∧
    (main tool T secs fs0).fs.latest_uptime = Node.file (T ++ "\n") true := by
  obtain ⟨hd, h3⟩ := main_fetch_output_some tool T secs fs0 fs3 hout
  subst h3
  have hf : (tool.fetch fs0.remote_latest Node.absent).1 = Node.file c true := by
    simpa [after_fetch, before_fetch] using hfile
  have hx : fs_exists (after_fetch tool (before_fetch T fs0)).folder
      (after_fetch tool (before_fetch T fs0)).latest_uptime = true := by
    simp [after_fetch, before_fetch, hf, fs_exists_after_fetch_file]
  have hopen2 : ofstream_ok (after_fetch tool (before_fetch T fs0)).folder
      fs0.server_uptime_log = true := by
    simpa [after_fetch, before_fetch] using hopen
  have hm : ofstream_ok (after_fetch tool (before_fetch T fs0)).folder
      (after_fetch tool (before_fetch T fs0)).latest_uptime = true := by
    simp [after_fetch, before_fetch, hf, ofstream_ok_after_fetch_file]
  rw [main_of_found tool T secs fs0 hd hx]
  exact ⟨rfl, ofstream_app_of_ok _ _ _ _ hopen2 hprior, ofstream_trunc_of_ok _ _ _ hm⟩

theorem C1_witness :
    (main tool_up "2025-01-01T10:05:00+0100" "0.5" fs_stale).branch = some Branch.reachable ∧
    (main tool_up "2025-01-01T10:05:00+0100" "0.5" fs_stale).fs.server_uptime_log =
      Node.file ("2025-01-01T10:00:00+0100\n" ++ ("2025-01-01T10:05:00+0100" ++ "\n")) true ∧
    (main tool_up "2025-01-01T10:05:00+0100" "0.5" fs_stale).fs.latest_uptime =
      Node.file ("2025-01-01T10:05:00+0100" ++ "\n") true :=
  C1_reachable_branch_effects tool_up "2025-01-01T10:05:00+0100" "0.5" fs_stale
    { before_fetch "2025-01-01T10:05:00+0100" fs_stale with
      latest_uptime := Node.file "2025-01-01T10:00:00+0100\n" true }
    "2025-01-01T10:00:00+0100\n" "2025-01-01T10:00:00+0100\n" rfl rfl rfl rfl

/-- C3, as the code has it: in `fs_stale_locked` the stale marker is a regular
file that cannot be unlinked.  `std::filesystem::remove` throws, nothing
catches it, the process ends before the fetch probe is invoked and the stale
marker is still there: Marker Reset did raise an error. -/
theorem C3_locked_stale_marker_aborts_reset :
    fs_remove fs_stale_locked.folder fs_stale_locked.latest_uptime = Except.error () ∧
    (main tool_down "2025-01-01T10:05:00+0100" "0.5" fs_stale_locked).returned = false ∧
    (main tool_down "2025-01-01T10:05:00+0100" "0.5" fs_stale_locked).fetch_input = none ∧
    (main tool_down "2025-01-01T10:05:00+0100" "0.5" fs_stale_locked).branch = none ∧
    (main tool_down "2025-01-01T10:05:00+0100" "0.5" fs_stale_locked).fs.latest_uptime =
      Node.file "2025-01-01T10:00:00+0100\n" true :=
  ⟨rfl, rfl, rfl, rfl, rfl⟩

/-- C3 (amended): when the marker path holds nothing, or a stale file that the
program is able to delete, Marker Reset raises no error and leaves the marker
absent while every other path keeps what it had, so the fetch probe is invoked
on a state with no local marker; a fetch probe that then writes nothing leads
to the unreachable report, stale marker or not. -/
theorem C3_marker_reset_clears_stale (tool : SyncTool) (T secs : String) (fs0 : FS)
    (h : fs0.latest_uptime.deletable fs0.folder = true) :
    fs_remove fs0.folder fs0.latest_uptime = Except.ok Node.absent ∧
    (main tool T secs fs0).fetch_input =
      some { fs0 with
             laptop_uptime_log := ofstream_app fs0.folder fs0.laptop_uptime_log (T ++ "\n"),
             latest_uptime := Node.absent } ∧
    (∀ fi, (main tool T secs fs0).fetch_input = some fi → fi.latest_uptime = Node.absent) ∧
    ((tool.fetch fs0.remote_latest Node.absent).1 = Node.absent →
      (main tool T secs fs0).branch = some Branch.unreachable ∧
      msg_failed ∈ (main tool T secs fs0).console ∧
      msg_connected ∉ (main tool T secs fs0).console) := by
  have hin := (fetch_output_of_deletable tool T secs fs0 h).2
  refine ⟨fs_remove_of_deletable _ _ h, hin, ?_, ?_⟩
  · intro fi hfi
    rw [hin] at hfi
    rw [← Option.some.inj hfi]
    rfl
  · intro hno
    have hx : fs_exists (after_fetch tool (before_fetch T fs0)).folder
        (after_fetch tool (before_fetch T fs0)).latest_uptime = false := by
      simp [after_fetch, before_fetch, hno, fs_exists_absent]
    rw [main_of_not_found tool T secs fs0 h hx]
    refine ⟨rfl, by simp, ?_⟩
    simp
    exact ⟨by decide, ne_msg_finished _ _ (by decide)⟩

theorem C3_witness :
    fs_remove fs_stale.folder fs_stale.latest_uptime = Except.ok Node.absent ∧
    (main tool_down "2025-01-01T10:05:00+0100" "0.5" fs_stale).fetch_input =
      some { fs_stale with
             laptop_uptime_log :=
               ofstream_app fs_stale.folder fs_stale.laptop_uptime_log
                 ("2025-01-01T10:05:00+0100" ++ "\n"),
             latest_uptime := Node.absent } ∧
    (∀ fi, (main tool_down "2025-01-01T10:05:00+0100" "0.5" fs_stale).fetch_input = some fi →
      fi.latest_uptime = Node.absent) ∧
    ((tool_down.fetch fs_stale.remote_latest Node.absent).1 = Node.absent →
      (main tool_down "2025-01-01T10:05:00+0100" "0.5" fs_stale).branch =
        some Branch.unreachable ∧
      msg_failed ∈ (main tool_down "2025-01-01T10:05:00+0100" "0.5" fs_stale).console ∧
      msg_connected ∉ (main tool_down "2025-01-01T10:05:00+0100" "0.5" fs_stale).console) :=
  C3_marker_reset_clears_stale tool_down "2025-01-01T10:05:00+0100" "0.5" fs_stale rfl

/-- C4, as the code has it: started where `../local_uptime_folder` does not
exist, the stream of lines 75-77 does not open, the unchecked write of line 78
is lost, and the run still goes on to its end: the laptop log gains no line. -/
theorem C4_missing_folder_log_gains_no_line :
    (main tool_down "2025-01-01T10:05:00+0100" "0.5" fs_no_folder).returned = true ∧
    (main tool_down "2025-01-01T10:05:00+0100" "0.5" fs_no_folder).trace.head? =
      some (Step.laptop_append false) ∧
    (main tool_down "2025-01-01T10:05:00+0100" "0.5" fs_no_folder).fs.laptop_uptime_log =
      Node.absent ∧
    (main tool_down "2025-01-01T10:05:00+0100" "0.5" fs_no_folder).fs.laptop_uptime_log.content ≠
      some ("" ++ ("2025-01-01T10:05:00+0100" ++ "\n")) := by
  refine ⟨rfl, rfl, rfl, ?_⟩
  decide

/-- C4 (amended): in every run in which the laptop log can be opened for
appending, the laptop log ends as its prior content followed by the one line
`T` + newline, whatever the two commands do or return, and the line is already
there in the state on which the fetch probe is invoked; the append is the first
step of the run. -/
theorem C4_laptop_log_gains_one_line (tool : SyncTool) (T secs : String) (fs0 : FS)
    (prior : String) (hprior : fs0.laptop_uptime_log.content = some prior)
    (hopen : ofstream_ok fs0.folder fs0.laptop_uptime_log = true) :
    (main tool T secs fs0).fs.laptop_uptime_log = Node.file (prior ++ (T ++ "\n")) true ∧
    (∀ fi, (main tool T secs fs0).fetch_input = some fi →
      fi.laptop_uptime_log = Node.file (prior ++ (T ++ "\n")) true) ∧
    (main tool T secs fs0).trace.head? = some (Step.laptop_append true) := by
  have happ := ofstream_app_of_ok _ _ (T ++ "\n") _ hopen hprior
  cases hd : fs0.latest_uptime.deletable fs0.folder
  · rw [main_of_not_deletable tool T secs fs0 hd]
    simp [happ, hopen]
  · cases hx : fs_exists (after_fetch tool (before_fetch T fs0)).folder
        (after_fetch tool (before_fetch T fs0)).latest_uptime
    · rw [main_of_not_found tool T secs fs0 hd hx]
      simp [after_fetch, before_fetch, happ, hopen]
    · rw [main_of_found tool T secs fs0 hd hx]
      simp [after_fetch, before_fetch, happ, hopen]

theorem C4_witness :
    (main tool_down "2025-01-01T10:05:00+0100" "0.5" fs_stale).fs.laptop_uptime_log =
      Node.file ("2025-01-01T10:00:00+0100\n" ++ ("2025-01-01T10:05:00+0100" ++ "\n")) true ∧
    (∀ fi, (main tool_down "2025-01-01T10:05:00+0100" "0.5" fs_stale).fetch_input = some fi →
      fi.laptop_uptime_log =
        Node.file ("2025-01-01T10:00:00+0100\n" ++ ("2025-01-01T10:05:00+0100" ++ "\n"))
          true) ∧
    (main tool_down "2025-01-01T10:05:00+0100" "0.5" fs_stale).trace.head? =
      some (Step.laptop_append true) :=
  C4_laptop_log_gains_one_line tool_down "2025-01-01T10:05:00+0100" "0.5" fs_stale
    "2025-01-01T10:00:00+0100\n" rfl rfl

/-- C5: the branch depends only on whether the marker exists after the fetch
probe, never on the probe exit status: two runs from the same state and
timestamp whose probes leave the same filesystem (statuses unconstrained) take
the same branch, print the same console lines and end in the same filesystem;
a marker that exists gives the reachable branch, an absent one the unreachable
branch. -/
theorem C5_branch_ignores_exit_status (tool1 tool2 : SyncTool) (T secs : String) (fs0 : FS)
    (hup : tool1.upload = tool2.upload)
    (hleft : (main tool1 T secs fs0).fetch_output = (main tool2 T secs fs0).fetch_output) :
    (main tool1 T secs fs0).branch = (main tool2 T secs fs0).branch ∧
    (main tool1 T secs fs0).console = (main tool2 T secs fs0).console ∧
    (main tool1 T secs fs0).fs = (main tool2 T secs fs0).fs ∧
    (∀ fo, (main tool1 T secs fs0).fetch_output = some fo →
      (fs_exists fo.folder fo.latest_uptime = true →
        (main tool1 T secs fs0).branch = some Branch.reachable) ∧
      (fs_exists fo.folder fo.latest_uptime = false →
        (main tool1 T secs fs0).branch = some Branch.unreachable)) := by
  cases hd : fs0.latest_uptime.deletable fs0.folder
  · rw [main_of_not_deletable tool1 T secs fs0 hd, main_of_not_deletable tool2 T secs fs0 hd]
    simp
  · have hAF : after_fetch tool1 (before_fetch T fs0) = after_fetch tool2 (before_fetch T fs0) := by
      rw [(fetch_output_of_deletable tool1 T secs fs0 hd).1,
        (fetch_output_of_deletable tool2 T secs fs0 hd).1] at hleft
      exact Option.some.inj hleft
    cases hx : fs_exists (after_fetch tool1 (before_fetch T fs0)).folder
        (after_fetch tool1 (before_fetch T fs0)).latest_uptime
    · have hx2 := hx
      rw [hAF] at hx2
      rw [main_of_not_found tool1 T secs fs0 hd hx, main_of_not_found tool2 T secs fs0 hd hx2]
      refine ⟨rfl, rfl, hAF, ?_⟩
      intro fo hfo
      simp at hfo
      subst hfo
      simp [hx]
    · have hx2 := hx
      rw [hAF] at hx2
      rw [main_of_found tool1 T secs fs0 hd hx, main_of_found tool2 T secs fs0 hd hx2]
      refine ⟨rfl, rfl, ?_, ?_⟩
      · simp only [hAF, hup]
      · intro fo hfo
        simp at hfo
        subst hfo
        simp [hx]

theorem C5_witness :
    (main tool_down "2025-01-01T10:05:00+0100" "0.5" fs_stale).branch =
      (main tool_down_quiet "2025-01-01T10:05:00+0100" "0.5" fs_stale).branch ∧
    (main tool_down "2025-01-01T10:05:00+0100" "0.5" fs_stale).console =
      (main tool_down_quiet "2025-01-01T10:05:00+0100" "0.5" fs_stale).console ∧
    (main tool_down "2025-01-01T10:05:00+0100" "0.5" fs_stale).fs =
      (main tool_down_quiet "2025-01-01T10:05:00+0100" "0.5" fs_stale).fs ∧
    (∀ fo, (main tool_down "2025-01-01T10:05:00+0100" "0.5" fs_stale).fetch_output = some fo →
      (fs_exists fo.folder fo.latest_uptime = true →
        (main tool_down "2025-01-01T10:05:00+0100" "0.5" fs_stale).branch =
          some Branch.reachable) ∧
      (fs_exists fo.folder fo.latest_uptime = false →
        (main tool_down "2025-01-01T10:05:00+0100" "0.5" fs_stale).branch =
          some Branch.unreachable)) :=
  C5_branch_ignores_exit_status tool_down tool_down_quiet "2025-01-01T10:05:00+0100" "0.5"
    fs_stale rfl rfl

/-! ## Error handling -/

/-- Neither handler message is ever printed: `std::system` reports failure
through its return value, which `main` discards, so the two `catch` blocks are
never entered. -/
theorem handler_messages_never_printed (tool : SyncTool) (T secs : String) (fs0 : FS) :
    msg_retrieval_error ∉ (main tool T secs fs0).console ∧
    msg_upload_error ∉ (main tool T secs fs0).console := by
  have e1 : msg_retrieval_error ≠ msg_finished secs := ne_msg_finished _ _ (by decide)
  have e2 : msg_upload_error ≠ msg_finished secs := ne_msg_finished _ _ (by decide)
  have e3 : msg_retrieval_error ≠ msg_connected := by decide
  have e4 : msg_retrieval_error ≠ msg_failed := by decide
  have e5 : msg_upload_error ≠ msg_connected := by decide
  have e6 : msg_upload_error ≠ msg_failed := by decide
  cases hd : fs0.latest_uptime.deletable fs0.folder
  · rw [main_of_not_deletable tool T secs fs0 hd]
    simp
  · cases hx : fs_exists (after_fetch tool (before_fetch T fs0)).folder
        (after_fetch tool (before_fetch T fs0)).latest_uptime
    · rw [main_of_not_found tool T secs fs0 hd hx]
      simp [e1, e2, e4, e6]
    · rw [main_of_found tool T secs fs0 hd hx]
      simp [e1, e2, e3, e5]

/-- C6: a fetch command that exits with status 1 (run on `tool_down`) and an
upload command that exits with status 1 (run on `tool_upload_fails`) are both
invoked, the run goes on to the inference step and to the end, and the console
holds only the connection line and the duration line: neither
"Error during file retrieval attempt." nor "Error during file upload attempt."
is printed. -/
theorem C6_failed_commands_print_no_error_line :
    (main tool_down "2025-01-01T10:05:00+0100" "0.5" fs_stale).trace =
      [Step.laptop_append true, Step.marker_remove, Step.fetch_call 1,
       Step.exists_check false] ∧
    (main tool_down "2025-01-01T10:05:00+0100" "0.5" fs_stale).console =
      [msg_failed, msg_finished "0.5"] ∧
    (main tool_upload_fails "2025-01-01T10:05:00+0100" "0.5" fs_stale).trace =
      [Step.laptop_append true, Step.marker_remove, Step.fetch_call 0,
       Step.exists_check true, Step.server_append true, Step.marker_overwrite true,
       Step.upload_call 1] ∧
    (main tool_upload_fails "2025-01-01T10:05:00+0100" "0.5" fs_stale).console =
      [msg_connected, msg_finished "0.5"] :=
  ⟨rfl, rfl, rfl, rfl⟩

/-- When Marker Reset raises no error, `main` returns and the duration line is
the last thing printed, whatever the log paths hold (the appends and the
overwrite may fail) and whatever the two commands do. -/
theorem main_returns_of_deletable (tool : SyncTool) (T secs : String) (fs0 : FS)
    (h : fs0.latest_uptime.deletable fs0.folder = true) :
    (main tool T secs fs0).returned = true ∧
    (main tool T secs fs0).console.getLast? = some (msg_finished secs) := by
  cases hx : fs_exists (after_fetch tool (before_fetch T fs0)).folder
      (after_fetch tool (before_fetch T fs0)).latest_uptime
  · rw [main_of_not_found tool T secs fs0 h hx]
    simp
  · rw [main_of_found tool T secs fs0 h hx]
    simp

/-- C7: started on a state where a non-empty directory occupies the marker
path, `std::filesystem::remove` throws, nothing catches it, and the process
ends after the laptop-log append without printing anything: the line
"Finished running script in ... seconds." is never reached. -/
theorem C7_remove_error_is_fatal :
    (main tool_up "2025-01-01T10:05:00+0100" "0.5" fs_marker_dir).returned = false ∧
    (main tool_up "2025-01-01T10:05:00+0100" "0.5" fs_marker_dir).console = [] ∧
    (main tool_up "2025-01-01T10:05:00+0100" "0.5" fs_marker_dir).trace =
      [Step.laptop_append true, Step.marker_remove] ∧
    (main tool_up "2025-01-01T10:05:00+0100" "0.5" fs_marker_dir).console.getLast? ≠
      some (msg_finished "0.5") :=
  ⟨rfl, rfl, rfl, by simp [main, fs_marker_dir, fs_remove]⟩

/-- C8: in every run that enters the reachable branch the steps after the
existence check are exactly (a) the server-log append, (b) the marker overwrite,
(c) the upload call, once each and in that order, whether or not the streams
opened and whatever status the upload returns.  (a) turns a server log that can
be opened into its prior content followed by `T` + newline and leaves one that
cannot be opened as it was; (b) turns a writable marker file into exactly `T` +
newline and leaves any other marker as it was; (c) is invoked on the state left
by (a) and (b), in which the marker holds `T` + newline whenever the overwrite
succeeded, and only the remote object differs at run end. -/
theorem C8_reachable_substeps_in_order (tool : SyncTool) (T secs : String) (fs0 : FS)
    (h : (main tool T secs fs0).branch = some Branch.reachable) :
    ∃ (l : Bool) (st : Int) (a b : Bool) (s : Int) (fo fu : FS),
      (main tool T secs fs0).trace =
        [Step.laptop_append l, Step.marker_remove, Step.fetch_call st,
         Step.exists_check true, Step.server_append a, Step.marker_overwrite b,
         Step.upload_call s] ∧
      (main tool T secs fs0).fetch_output = some fo ∧
      (main tool T secs fs0).upload_input = some fu ∧
      (a = true ↔ (fo.server_uptime_log = Node.absent ∧ fo.folder = Folder.writable) ∨
        ∃ c, fo.server_uptime_log = Node.file c true) ∧
      (∀ prior, a = true → fo.server_uptime_log.content = some prior →
        fu.server_uptime_log = Node.file (prior ++ (T ++ "\n")) true) ∧
      (a = false → fu.server_uptime_log = fo.server_uptime_log) ∧
      (b = true ↔ ∃ c, fo.latest_uptime = Node.file c true) ∧
      (b = true → fu.latest_uptime = Node.file (T ++ "\n") true) ∧
      (b = false → fu.latest_uptime = fo.latest_uptime) ∧
      fu.laptop_uptime_log = fo.laptop_uptime_log ∧
      fu.folder = fo.folder ∧
      fu.remote_latest = fo.remote_latest ∧
      s = (tool.upload fu.latest_uptime fu.remote_latest).2 ∧
      (main tool T secs fs0).fs =
        { fu with remote_latest := (tool.upload fu.latest_uptime fu.remote_latest).1 } ∧
      (main tool T secs fs0).returned = true := by
  have hd : fs0.latest_uptime.deletable fs0.folder = true := by
    cases hd : fs0.latest_uptime.deletable fs0.folder
    · rw [main_of_not_deletable tool T secs fs0 hd] at h
      simp at h
    · rfl
  have hx : fs_exists (after_fetch tool (before_fetch T fs0)).folder
      (after_fetch tool (before_fetch T fs0)).latest_uptime = true := by
    cases hx : fs_exists (after_fetch tool (before_fetch T fs0)).folder
        (after_fetch tool (before_fetch T fs0)).latest_uptime
    · rw [main_of_not_found tool T secs fs0 hd hx] at h
      simp at h
    · rfl
  rw [main_of_found tool T secs fs0 hd hx]
  refine ⟨_, _, _, _, _, after_fetch tool (before_fetch T fs0), _, rfl, rfl, rfl,
    ?_, ?_, ?_, ?_, ?_, ?_, rfl, rfl, rfl, rfl, rfl, rfl⟩
  · have hs : (after_fetch tool (before_fetch T fs0)).server_uptime_log =
        fs0.server_uptime_log := rfl
    rw [hs]
    generalize (after_fetch tool (before_fetch T fs0)).folder = f at hx ⊢
    generalize (after_fetch tool (before_fetch T fs0)).latest_uptime = m at hx
    cases f <;> cases m <;> simp [fs_exists] at hx <;>
      cases fs0.server_uptime_log <;> simp [ofstream_ok]
  · intro prior ha hc
    exact ofstream_app_of_ok _ _ _ _ ha hc
  · intro ha
    exact ofstream_app_of_not_ok _ _ _ ha
  · generalize (after_fetch tool (before_fetch T fs0)).folder = f at hx ⊢
    generalize (after_fetch tool (before_fetch T fs0)).latest_uptime = m at hx ⊢
    cases f <;> cases m <;> simp [fs_exists] at hx <;> simp [ofstream_ok]
  · intro hb
    exact ofstream_trunc_of_ok _ _ _ hb
  · intro hb
    exact ofstream_trunc_of_not_ok _ _ _ hb

theorem C8_witness :
    ∃ (l : Bool) (st : Int) (a b : Bool) (s : Int) (fo fu : FS),
      (main tool_upload_fails "2025-01-01T10:05:00+0100" "0.5" fs_server_log_read_only).trace =
        [Step.laptop_append l, Step.marker_remove, Step.fetch_call st,
         Step.exists_check true, Step.server_append a, Step.marker_overwrite b,
         Step.upload_call s] ∧
      (main tool_upload_fails "2025-01-01T10:05:00+0100" "0.5"
        fs_server_log_read_only).fetch_output = some fo ∧
      (main tool_upload_fails "2025-01-01T10:05:00+0100" "0.5"
        fs_server_log_read_only).upload_input = some fu ∧
      (a = true ↔ (fo.server_uptime_log = Node.absent ∧ fo.folder = Folder.writable) ∨
        ∃ c, fo.server_uptime_log = Node.file c true) ∧
      (∀ prior, a = true → fo.server_uptime_log.content = some prior →
        fu.server_uptime_log = Node.file (prior ++ ("2025-01-01T10:05:00+0100" ++ "\n")) true) ∧
      (a = false → fu.server_uptime_log = fo.server_uptime_log) ∧
      (b = true ↔ ∃ c, fo.latest_uptime = Node.file c true) ∧
      (b = true → fu.latest_uptime = Node.file ("2025-01-01T10:05:00+0100" ++ "\n") true) ∧
      (b = false → fu.latest_uptime = fo.latest_uptime) ∧
      fu.laptop_uptime_log = fo.laptop_uptime_log ∧
      fu.folder = fo.folder ∧
      fu.remote_latest = fo.remote_latest ∧
      s = (tool_upload_fails.upload fu.latest_uptime fu.remote_latest).2 ∧
      (main tool_upload_fails "2025-01-01T10:05:00+0100" "0.5" fs_server_log_read_only).fs =
        { fu with
          remote_latest := (tool_upload_fails.upload fu.latest_uptime fu.remote_latest).1 } ∧
      (main tool_upload_fails "2025-01-01T10:05:00+0100" "0.5"
        fs_server_log_read_only).returned = true :=
  C8_reachable_substeps_in_order tool_upload_fails "2025-01-01T10:05:00+0100" "0.5"
    fs_server_log_read_only rfl

/-- A run on a read-only server log, step by step: the server-log append fails
and the overwrite and the upload still take place. -/
theorem run_with_read_only_server_log :
    (main tool_upload_fails "2025-01-01T10:05:00+0100" "0.5" fs_server_log_read_only).trace =
      [Step.laptop_append true, Step.marker_remove, Step.fetch_call 0,
       Step.exists_check true, Step.server_append false, Step.marker_overwrite true,
       Step.upload_call 1] ∧
    (main tool_upload_fails "2025-01-01T10:05:00+0100" "0.5" fs_server_log_read_only).fs =
      { folder := Folder.writable,
        laptop_uptime_log := Node.file
          "2025-01-01T10:00:00+0100\n2025-01-01T10:05:00+0100\n" true,
        server_uptime_log := Node.file "2025-01-01T10:00:00+0100\n" false,
        latest_uptime := Node.file "2025-01-01T10:05:00+0100\n" true,
        remote_latest := some "2025-01-01T10:00:00+0100\n" } :=
  ⟨rfl, rfl⟩

/-! ## Clock Reader -/

theorem to_time_t_bounds (now : TimePoint) :
    -9223372036 ≤ to_time_t now ∧ to_time_t now ≤ 9223372036 := by
  have h1 := now.lower
  have h2 := now.upper
  unfold to_time_t
  split <;> omega

theorem civil_bounds (days : Int) (hlo : -106755 ≤ days) (hhi : days ≤ 106755) :
    1600 ≤ (civil_from_days days).year ∧ (civil_from_days days).year ≤ 2400 ∧
    1 ≤ (civil_from_days days).month ∧ (civil_from_days days).month ≤ 12 ∧
    1 ≤ (civil_from_days days).day ∧ (civil_from_days days).day ≤ 31 := by
  simp only [civil_from_days]
  have hdoe0 : 0 ≤ (days + 719468) % 146097 := Int.emod_nonneg _ (by norm_num)
  have hdoe1 : (days + 719468) % 146097 < 146097 := Int.emod_lt_of_pos _ (by norm_num)
  generalize (days + 719468) % 146097 = doe at hdoe0 hdoe1 ⊢
  have hera : 4 ≤ (days + 719468) / 146097 ∧ (days + 719468) / 146097 ≤ 5 := by omega
  generalize (days + 719468) / 146097 = era at hera ⊢
  have hc : 0 ≤ min (doe / 36524) 3 ∧ min (doe / 36524) 3 ≤ 3 := by omega
  have hdoc : 0 ≤ doe - min (doe / 36524) 3 * 36524 ∧
      doe - min (doe / 36524) 3 * 36524 ≤ 36524 := by omega
  generalize min (doe / 36524) 3 = c at hc hdoc ⊢
  generalize doe - c * 36524 = doc at hdoc ⊢
  have hq : 0 ≤ doc / 1461 ∧ doc / 1461 ≤ 24 := by omega
  have hdoq : 0 ≤ doc - doc / 1461 * 1461 ∧ doc - doc / 1461 * 1461 ≤ 1460 := by omega
  generalize doc / 1461 = q at hq hdoq ⊢
  generalize doc - q * 1461 = doq at hdoq ⊢
  have hy4 : 0 ≤ min (doq / 365) 3 ∧ min (doq / 365) 3 ≤ 3 := by omega
  have hdoy : 0 ≤ doq - min (doq / 365) 3 * 365 ∧ doq - min (doq / 365) 3 * 365 ≤ 365 := by
    omega
  generalize min (doq / 365) 3 = y4 at hy4 hdoy ⊢
  generalize doq - y4 * 365 = doy at hdoy ⊢
  have hmp : 0 ≤ (5 * doy + 2) / 153 ∧ (5 * doy + 2) / 153 ≤ 11 := by omega
  have hd : 1 ≤ doy - (153 * ((5 * doy + 2) / 153) + 2) / 5 + 1 ∧
      doy - (153 * ((5 * doy + 2) / 153) + 2) / 5 + 1 ≤ 31 := by omega
  generalize (5 * doy + 2) / 153 = mp at hmp hd ⊢
  refine ⟨?_, ?_, ?_, ?_, hd.1, hd.2⟩ <;> split_ifs <;> omega

/-- The date conversion on known days: the epoch, the day before it, leap
days of 2000 and 2024, the end of February 2100 (not a leap year) and the two
ends of the clock range. -/
theorem civil_from_days_samples :
    civil_from_days 0 = { year := 1970, month := 1, day := 1 } ∧
    civil_from_days (-1) = { year := 1969, month := 12, day := 31 } ∧
    civil_from_days 11016 = { year := 2000, month := 2, day := 29 } ∧
    civil_from_days 11017 = { year := 2000, month := 3, day := 1 } ∧
    civil_from_days 19782 = { year := 2024, month := 2, day := 29 } ∧
    civil_from_days 47540 = { year := 2100, month := 2, day := 28 } ∧
    civil_from_days 47541 = { year := 2100, month := 3, day := 1 } ∧
    civil_from_days 106751 = { year := 2262, month := 4, day := 11 } ∧
    civil_from_days (-106752) = { year := 1677, month := 9, day := 21 } := by
  decide

/-- Every clock reading gives a broken-down time with its fields in range and
a four-digit year. -/
theorem localtime_ranges (zone : Int → UtcOffset) (now : TimePoint) :
    (localtime zone (to_time_t now)).inRange ∧
    1000 ≤ (localtime zone (to_time_t now)).tm_year + 1900 ∧
    (localtime zone (to_time_t now)).tm_year + 1900 ≤ 9999 := by
  obtain ⟨t1, t2⟩ := to_time_t_bounds now
  have z1 := (zone (to_time_t now)).lower
  have z2 := (zone (to_time_t now)).upper
  obtain ⟨c1, c2, c3, c4, c5, c6⟩ :=
    civil_bounds ((to_time_t now + (zone (to_time_t now)).seconds) / 86400)
      (by omega) (by omega)
  simp only [localtime, Tm.inRange]
  refine ⟨⟨?_, ?_, ?_, ?_, ?_, ?_, ?_⟩, ?_, ?_⟩ <;> omega

theorem decimal_length (n k : Nat) (hlo : 10 ^ k ≤ n) (hhi : n < 10 ^ (k + 1)) :
    (decimal n).length = k + 1 := by
  have hn : n ≠ 0 := by
    have : 0 < 10 ^ k := by positivity
    omega
  simp [decimal, hn, Nat.digits_len 10 n (by norm_num) hn,
    Nat.log_eq_of_pow_le_of_lt_pow hlo hhi]

theorem decimal_length_lt_ten (n : Nat) (h : n < 10) : (decimal n).length = 1 := by
  by_cases h0 : n = 0
  · simp [decimal, h0]
  · exact decimal_length n 0 (by simp; omega) (by simpa using h)

theorem pad2_length (n : Nat) (h : n < 100) : (pad2 n).length = 2 := by
  unfold pad2
  split
  · simp [decimal_length_lt_ten n (by assumption)]
  · exact decimal_length n 1 (by simp; omega) (by simpa using h)

theorem fmtY_length (t : Tm) (hlo : 1000 ≤ t.tm_year + 1900) (hhi : t.tm_year + 1900 ≤ 9999) :
    (fmtY t).length = 4 := by
  have hneg : ¬ t.tm_year + 1900 < 0 := by omega
  simp only [fmtY, hneg, if_false]
  exact decimal_length _ 3 (by omega) (by omega)

theorem fmtz_length (t : Tm) (h : t.tm_gmtoff.natAbs < 360000) : (fmtz t).length = 5 := by
  simp only [fmtz, List.length_cons, List.length_append]
  rw [pad2_length _ (by omega), pad2_length _ (by omega)]

theorem formatted_length (t : Tm) (hr : t.inRange)
    (hlo : 1000 ≤ t.tm_year + 1900) (hhi : t.tm_year + 1900 ≤ 9999) :
    (formatted t).length = 24 := by
  obtain ⟨h1, _, h3, h4, h5, h6, h7⟩ := hr
  simp only [formatted, fmtF, fmtT, List.length_append, List.length_cons, List.length_nil]
  rw [fmtY_length t hlo hhi, fmtz_length t h7, pad2_length _ (by omega),
    pad2_length _ (by omega), pad2_length _ (by omega), pad2_length _ (by omega),
    pad2_length _ (by omega)]

theorem digitChar_size (d : Nat) : (digitChar d).utf8Size = 1 := by
  unfold digitChar
  have : d % 10 < 10 := Nat.mod_lt _ (by norm_num)
  interval_cases (d % 10) <;> rfl

theorem decimal_ascii (n : Nat) : ∀ c ∈ decimal n, c.utf8Size = 1 := by
  intro c hc
  unfold decimal at hc
  split at hc
  · simp at hc
    subst hc
    rfl
  · simp only [List.mem_map] at hc
    obtain ⟨d, _, rfl⟩ := hc
    exact digitChar_size d

theorem pad2_ascii (n : Nat) : ∀ c ∈ pad2 n, c.utf8Size = 1 := by
  intro c hc
  unfold pad2 at hc
  split at hc
  · rcases List.mem_cons.mp hc with h | h
    · subst h
      rfl
    · exact decimal_ascii n c h
  · exact decimal_ascii n c hc

theorem utf8_ascii (l : List Char) (h : ∀ c ∈ l, c.utf8Size = 1) :
    (String.mk l).utf8ByteSize = l.length := by
  induction l with
  | nil => rfl
  | cons c cs ih =>
    have := ih (fun x hx => h x (List.mem_cons_of_mem _ hx))
    simp [String.utf8ByteSize, String.utf8ByteSize.go] at this ⊢
    rw [this, h c (List.mem_cons_self _ _)]

theorem ascii_append {a b : List Char} (ha : ∀ c ∈ a, c.utf8Size = 1)
    (hb : ∀ c ∈ b, c.utf8Size = 1) : ∀ c ∈ a ++ b, c.utf8Size = 1 :=
  List.forall_mem_append.mpr ⟨ha, hb⟩

theorem ascii_single {x : Char} (hx : x.utf8Size = 1) : ∀ c ∈ [x], c.utf8Size = 1 := by
  intro c hc
  simp at hc
  subst hc
  exact hx

theorem formatted_ascii (t : Tm) : ∀ c ∈ formatted t, c.utf8Size = 1 := by
  have hY : ∀ c ∈ fmtY t, c.utf8Size = 1 := by
    unfold fmtY
    simp only
    split
    · exact ascii_append (a := ['-']) (ascii_single rfl) (decimal_ascii _)
    · exact decimal_ascii _
  have hz : ∀ c ∈ fmtz t, c.utf8Size = 1 := by
    unfold fmtz
    simp only
    refine ascii_append (a := [_]) (ascii_single ?_) (ascii_append (pad2_ascii _) (pad2_ascii _))
    split <;> rfl
  unfold formatted fmtF fmtT
  exact ascii_append (ascii_append (ascii_append (ascii_append (ascii_append (ascii_append
    (ascii_append hY (ascii_single rfl)) (pad2_ascii _)) (ascii_single rfl)) (pad2_ascii _))
    (ascii_single rfl)) (ascii_append (ascii_append (ascii_append (ascii_append (pad2_ascii _)
    (ascii_single rfl)) (pad2_ascii _)) (ascii_single rfl)) (pad2_ascii _))) hz

theorem digitChar_isDigit (d : Nat) : (digitChar d).isDigit = true := by
  unfold digitChar
  have : d % 10 < 10 := Nat.mod_lt _ (by norm_num)
  interval_cases (d % 10) <;> rfl

theorem decimal_isDigit (n : Nat) : ∀ c ∈ decimal n, c.isDigit = true := by
  intro c hc
  unfold decimal at hc
  split at hc
  · simp at hc
    subst hc
    rfl
  · simp only [List.mem_map] at hc
    obtain ⟨d, _, rfl⟩ := hc
    exact digitChar_isDigit d

theorem pad2_isDigit (n : Nat) : ∀ c ∈ pad2 n, c.isDigit = true := by
  intro c hc
  unfold pad2 at hc
  split at hc
  · rcases List.mem_cons.mp hc with h | h
    · subst h
      rfl
    · exact decimal_isDigit n c h
  · exact decimal_isDigit n c hc

theorem fmtY_isDigit (t : Tm) (h : 0 ≤ t.tm_year + 1900) : ∀ c ∈ fmtY t, c.isDigit = true := by
  have hneg : ¬ t.tm_year + 1900 < 0 := by omega
  simp only [fmtY, hneg, if_false]
  exact decimal_isDigit _

/-- The marker after a run that refreshed it. -/
theorem refreshed_marker_content (tool : SyncTool) (T secs : String) (fs0 : FS)
    (h : Step.marker_overwrite true ∈ (main tool T secs fs0).trace) :
    (main tool T secs fs0).fs.latest_uptime = Node.file (T ++ "\n") true := by
  cases hd : fs0.latest_uptime.deletable fs0.folder
  · rw [main_of_not_deletable tool T secs fs0 hd] at h
    simp at h
  · cases hx : fs_exists (after_fetch tool (before_fetch T fs0)).folder
        (after_fetch tool (before_fetch T fs0)).latest_uptime
    · rw [main_of_not_found tool T secs fs0 hd hx] at h
      simp at h
    · rw [main_of_found tool T secs fs0 hd hx] at h ⊢
      simp at h
      exact ofstream_trunc_of_ok _ _ _ h

/-- C9: for every value of the system clock and every time zone, the Clock
Reader yields a timestamp of exactly 24 characters (24 bytes) of the form
YYYY-MM-DDTHH:MM:SS±hhmm: a 4-digit year, 2-digit month, day, hour, minute and
second, a sign and 4 offset digits, separated by `-`, `-`, `T`, `:`, `:`.  With
its terminator it fits the 25-byte buffer, so the result is never truncated or
empty, and a marker file refreshed with it holds exactly 25 bytes. -/
theorem C9_timestamp_fixed_width (zone : Int → UtcOffset) (now : TimePoint) :
    ∃ s, clock_reader zone now = some s ∧ s.length = 24 ∧ s.utf8ByteSize = 24 ∧
      s.length + 1 ≤ 25 ∧ s ≠ "" ∧
      s.data = fmtY (localtime zone (to_time_t now)) ++ '-' ::
        (pad2 ((localtime zone (to_time_t now)).tm_mon + 1) ++ '-' ::
        (pad2 (localtime zone (to_time_t now)).tm_mday ++ 'T' ::
        (pad2 (localtime zone (to_time_t now)).tm_hour ++ ':' ::
        (pad2 (localtime zone (to_time_t now)).tm_min ++ ':' ::
        (pad2 (localtime zone (to_time_t now)).tm_sec ++
          fmtz (localtime zone (to_time_t now))))))) ∧
      (fmtY (localtime zone (to_time_t now))).length = 4 ∧
      (∀ c ∈ fmtY (localtime zone (to_time_t now)), c.isDigit = true) ∧
      (∀ n ∈ [(localtime zone (to_time_t now)).tm_mon + 1,
              (localtime zone (to_time_t now)).tm_mday,
              (localtime zone (to_time_t now)).tm_hour,
              (localtime zone (to_time_t now)).tm_min,
              (localtime zone (to_time_t now)).tm_sec],
        (pad2 n).length = 2 ∧ ∀ c ∈ pad2 n, c.isDigit = true) ∧
      (∃ sign hhmm, fmtz (localtime zone (to_time_t now)) = sign :: hhmm ∧
        (sign = '+' ∨ sign = '-') ∧ hhmm.length = 4 ∧ ∀ c ∈ hhmm, c.isDigit = true) ∧
      (s ++ "\n").utf8ByteSize = 25 ∧
      (∀ (tool : SyncTool) (secs : String) (fs0 : FS),
        Step.marker_overwrite true ∈ (main tool s secs fs0).trace →
        ∃ m, (main tool s secs fs0).fs.latest_uptime = Node.file m true ∧
          m.utf8ByteSize = 25) := by
  obtain ⟨hr, hlo, hhi⟩ := localtime_ranges zone now
  simp only [clock_reader]
  generalize localtime zone (to_time_t now) = t at hr hlo hhi ⊢
  have hlen := formatted_length t hr hlo hhi
  have hbytes : (String.mk (formatted t) ++ "\n").utf8ByteSize = 25 := by
    have e : String.mk (formatted t) ++ "\n" = String.mk (formatted t ++ ['\n']) := rfl
    rw [e, utf8_ascii _ (ascii_append (formatted_ascii t) (ascii_single (x := '\n') rfl))]
    simp [hlen]
  obtain ⟨h1, h2, h3, h4, h5, h6, h7⟩ := hr
  refine ⟨String.mk (formatted t), ?_, ?_, ?_, ?_, ?_, ?_, fmtY_length t hlo hhi,
    fmtY_isDigit t (by omega), ?_, ?_, hbytes, ?_⟩
  · simp [current_time_string, strftime, hlen]
  · simp [String.length, hlen]
  · rw [utf8_ascii _ (formatted_ascii t), hlen]
  · simp [String.length, hlen]
  · intro e
    have : (String.mk (formatted t)).length = 0 := by rw [e]; rfl
    simp [String.length, hlen] at this
  · simp [formatted, fmtF, fmtT]
  · intro n hn
    refine ⟨pad2_length n ?_, pad2_isDigit n⟩
    simp only [List.mem_cons, List.mem_singleton, List.not_mem_nil, or_false] at hn
    rcases hn with h | h | h | h | h <;> omega
  · refine ⟨_, _, rfl, ?_, ?_, ?_⟩
    · split <;> simp
    · simp only [List.length_append]
      rw [pad2_length _ (by omega), pad2_length _ (by omega)]
    · exact List.forall_mem_append.mpr ⟨pad2_isDigit _, pad2_isDigit _⟩
  · intro tool secs fs0 hmo
    exact ⟨_, refreshed_marker_content tool _ secs fs0 hmo, hbytes⟩

theorem localtime_now_2025 :
    localtime zone_plus_one (to_time_t now_2025) =
      { tm_year := 125, tm_mon := 0, tm_mday := 1, tm_hour := 10, tm_min := 5, tm_sec := 0,
        tm_gmtoff := 3600 } := by
  decide

theorem clock_reader_now_2025 :
    clock_reader zone_plus_one now_2025 = some "2025-01-01T10:05:00+0100" := by
  have h : formatted (localtime zone_plus_one (to_time_t now_2025)) =
      "2025-01-01T10:05:00+0100".data := by
    rw [localtime_now_2025]
    simp [formatted, fmtF, fmtT, fmtz, fmtY, pad2, decimal, digitChar]
  simp [clock_reader, current_time_string, strftime, h]

theorem localtime_now_max :
    localtime zone_plus_one (to_time_t now_max) =
      { tm_year := 362, tm_mon := 3, tm_mday := 12, tm_hour := 0, tm_min := 47, tm_sec := 16,
        tm_gmtoff := 3600 } := by
  decide

theorem clock_reader_now_max :
    clock_reader zone_plus_one now_max = some "2262-04-12T00:47:16+0100" := by
  have h : formatted (localtime zone_plus_one (to_time_t now_max)) =
      "2262-04-12T00:47:16+0100".data := by
    rw [localtime_now_max]
    simp [formatted, fmtF, fmtT, fmtz, fmtY, pad2, decimal, digitChar]
  simp [clock_reader, current_time_string, strftime, h]

theorem localtime_now_min :
    localtime zone_minus_five_thirty (to_time_t now_min) =
      { tm_year := -223, tm_mon := 8, tm_mday := 20, tm_hour := 18, tm_min := 42, tm_sec := 44,
        tm_gmtoff := -19800 } := by
  decide

theorem clock_reader_now_min :
    clock_reader zone_minus_five_thirty now_min = some "1677-09-20T18:42:44-0530" := by
  have h : formatted (localtime zone_minus_five_thirty (to_time_t now_min)) =
      "1677-09-20T18:42:44-0530".data := by
    rw [localtime_now_min]
    simp [formatted, fmtF, fmtT, fmtz, fmtY, pad2, decimal, digitChar]
  simp [clock_reader, current_time_string, strftime, h]

/-! ## Sequences of runs -/

theorem logText_snoc (stamps : List String) (t : String) :
    logText (stamps ++ [t]) = logText stamps ++ (t ++ "\n") := by
  simp [logText, List.foldl_append]

theorem content_file (c : String) (w : Bool) : (Node.file c w).content = some c := rfl

/-- One run on two readable logs whose appends succeed: the laptop log gains
the line, the server log gains the same line on the reachable branch and
nothing otherwise. -/
theorem main_logs_step (tool : SyncTool) (T secs : String) (fs : FS) (a b : String)
    (ha : fs.laptop_uptime_log.content = some a)
    (hb : fs.server_uptime_log.content = some b)
    (hok : appends_succeed (main tool T secs fs) = true) :
    (main tool T secs fs).fs.laptop_uptime_log.content = some (a ++ (T ++ "\n")) ∧
    (main tool T secs fs).fs.server_uptime_log.content =
      (if (main tool T secs fs).branch = some Branch.reachable
       then some (b ++ (T ++ "\n")) else some b) := by
  cases hd : fs.latest_uptime.deletable fs.folder
  · rw [main_of_not_deletable tool T secs fs hd] at hok ⊢
    simp [appends_succeed] at hok
    simp [ofstream_app_of_ok _ _ (T ++ "\n") _ hok ha, content_file, hb]
  · cases hx : fs_exists (after_fetch tool (before_fetch T fs)).folder
        (after_fetch tool (before_fetch T fs)).latest_uptime
    · rw [main_of_not_found tool T secs fs hd hx] at hok ⊢
      simp [appends_succeed] at hok
      simp [after_fetch, before_fetch, ofstream_app_of_ok _ _ (T ++ "\n") _ hok ha,
        content_file, hb]
    · rw [main_of_found tool T secs fs hd hx] at hok ⊢
      simp [appends_succeed] at hok
      have h1 := ofstream_app_of_ok _ _ (T ++ "\n") _ hok.1 ha
      have h2 := ofstream_app_of_ok _ _ (T ++ "\n") _ hok.2 hb
      simp only [after_fetch, before_fetch] at h1 h2 ⊢
      simp [h1, h2, content_file]

theorem runs_logs_invariant (inputs : List RunInput) :
    ∀ (fs : FS) (laptop_lines server_lines : List String),
      fs.laptop_uptime_log.content = some (logText laptop_lines) →
      fs.server_uptime_log.content = some (logText server_lines) →
      server_lines.Sublist laptop_lines →
      (∀ r ∈ run_list inputs fs, appends_succeed r = true) →
      ∃ server_lines2 : List String,
        (runs inputs fs).laptop_uptime_log.content =
          some (logText (laptop_lines ++ inputs.map (fun i => i.current_time_string))) ∧
        (runs inputs fs).server_uptime_log.content = some (logText server_lines2) ∧
        server_lines2.Sublist (laptop_lines ++ inputs.map (fun i => i.current_time_string)) := by
  induction inputs with
  | nil =>
    intro fs ll sl h1 h2 h3 _
    exact ⟨sl, by simpa [runs] using h1, by simpa [runs] using h2, by simpa using h3⟩
  | cons i rest ih =>
    intro fs ll sl h1 h2 h3 hok
    have hok1 : appends_succeed (main i.tool i.current_time_string i.run_seconds fs) = true :=
      hok _ (by simp [run_list])
    have hok2 : ∀ r ∈ run_list rest (main i.tool i.current_time_string i.run_seconds fs).fs,
        appends_succeed r = true := fun r hr => hok r (by simp [run_list, hr])
    obtain ⟨s1, s2⟩ :=
      main_logs_step i.tool i.current_time_string i.run_seconds fs _ _ h1 h2 hok1
    rw [← logText_snoc] at s1
    by_cases hb : (main i.tool i.current_time_string i.run_seconds fs).branch =
        some Branch.reachable
    · rw [if_pos hb, ← logText_snoc] at s2
      obtain ⟨sl2, r1, r2, r3⟩ := ih _ _ _ s1 s2 (List.Sublist.append_right h3 _) hok2
      exact ⟨sl2, by simpa [runs] using r1, by simpa [runs] using r2, by simpa using r3⟩
    · rw [if_neg hb] at s2
      obtain ⟨sl2, r1, r2, r3⟩ := ih _ _ _ s1 s2
        (h3.trans (List.sublist_append_left _ _)) hok2
      exact ⟨sl2, by simpa [runs] using r1, by simpa [runs] using r2, by simpa using r3⟩

/-- C10: after any finite sequence of runs started with both liveness logs
empty and in which the log appends succeed, the laptop log holds one line per
run (the run timestamps in order), and the lines of the server log form a
subsequence of them in the same order, so the server log never has more lines
than the laptop log; within one run the server log gains the same line `T` +
newline exactly when the reachable branch is taken. -/
theorem C10_server_log_subsequence_of_laptop_log (inputs : List RunInput) (fs0 : FS)
    (hl : fs0.laptop_uptime_log.content = some "")
    (hs : fs0.server_uptime_log.content = some "")
    (happ : ∀ r ∈ run_list inputs fs0, appends_succeed r = true) :
    (∃ server_lines : List String,
      (runs inputs fs0).laptop_uptime_log.content =
        some (logText (inputs.map (fun i => i.current_time_string))) ∧
      (runs inputs fs0).server_uptime_log.content = some (logText server_lines) ∧
      server_lines.Sublist (inputs.map (fun i => i.current_time_string)) ∧
      server_lines.length ≤ (inputs.map (fun i => i.current_time_string)).length) ∧
    (∀ (tool : SyncTool) (T secs : String) (fs : FS) (a b : String),
      fs.laptop_uptime_log.content = some a → fs.server_uptime_log.content = some b →
      appends_succeed (main tool T secs fs) = true →
      (main tool T secs fs).fs.laptop_uptime_log.content = some (a ++ (T ++ "\n")) ∧
      (main tool T secs fs).fs.server_uptime_log.content =
        (if (main tool T secs fs).branch = some Branch.reachable
         then some (b ++ (T ++ "\n")) else some b)) := by
  refine ⟨?_, fun tool T secs fs a b ha hb hok => main_logs_step tool T secs fs a b ha hb hok⟩
  obtain ⟨sl, r1, r2, r3⟩ := runs_logs_invariant inputs fs0 [] [] (by simpa [logText] using hl)
    (by simpa [logText] using hs) (List.Sublist.refl _) happ
  exact ⟨sl, by simpa using r1, r2, by simpa using r3, by simpa using r3.length_le⟩

theorem runs_sample_inputs :
    runs sample_inputs fs_fresh =
      { folder := Folder.writable,
        laptop_uptime_log := Node.file
          "2025-01-01T10:05:00+0100\n2025-01-01T10:06:00+0100\n2025-01-01T10:07:00+0100\n" true,
        server_uptime_log := Node.file
          "2025-01-01T10:05:00+0100\n2025-01-01T10:07:00+0100\n" true,
        latest_uptime := Node.file "2025-01-01T10:07:00+0100\n" true,
        remote_latest := some "2025-01-01T10:07:00+0100\n" } :=
  rfl

/-- Without the proviso on the appends: started where the folder is missing,
the first run loses its laptop-log line while the fetch command creates the
folder and the server log gains the line. -/
theorem runs_sample_inputs_no_folder :
    (runs sample_inputs fs_no_folder).laptop_uptime_log =
      Node.file "2025-01-01T10:06:00+0100\n2025-01-01T10:07:00+0100\n" true ∧
    (runs sample_inputs fs_no_folder).server_uptime_log =
      Node.file "2025-01-01T10:05:00+0100\n2025-01-01T10:07:00+0100\n" true :=
  ⟨rfl, rfl⟩

theorem C10_witness :
    (∃ server_lines : List String,
      (runs sample_inputs fs_fresh).laptop_uptime_log.content =
        some (logText (sample_inputs.map (fun i => i.current_time_string))) ∧
      (runs sample_inputs fs_fresh).server_uptime_log.content = some (logText server_lines) ∧
      server_lines.Sublist (sample_inputs.map (fun i => i.current_time_string)) ∧
      server_lines.length ≤ (sample_inputs.map (fun i => i.current_time_string)).length) ∧
    (∀ (tool : SyncTool) (T secs : String) (fs : FS) (a b : String),
      fs.laptop_uptime_log.content = some a → fs.server_uptime_log.content = some b →
      appends_succeed (main tool T secs fs) = true →
      (main tool T secs fs).fs.laptop_uptime_log.content = some (a ++ (T ++ "\n")) ∧
      (main tool T secs fs).fs.server_uptime_log.content =
        (if (main tool T secs fs).branch = some Branch.reachable
         then some (b ++ (T ++ "\n")) else some b)) :=
  C10_server_log_subsequence_of_laptop_log sample_inputs fs_fresh rfl rfl (by decide)

end ServerStatusCheck
